import Mathlib

/-!
Verification development for the `acomm` bridge (yuiseki/acomm).

Shallow embedding of the broker (`src/bridge.rs`), the wire protocol
(`src/protocol.rs`) and the chat adapters (`src/discord.rs`, `src/slack.rs`,
`src/ntfy.rs`).  Pure logic is translated function-by-function from the Rust
source; the asynchronous event loops are modelled as step functions over
explicit state, with the sequence of broadcast events (respectively the
sequence of outbound platform messages) made explicit as lists.
-/

namespace Acomm

/-!
Char-level string primitives.  Rust's `str` operations used by the sources
(`starts_with`, `trim`, `trim_end`, `split_whitespace`, `split`, `splitn`,
`replace`, `chars().count()`) are all defined on Unicode scalar values, so
they are modelled on `List Char` (via `String.data`); the Lean `String`
library functions are avoided because their byte-position implementations do
not reduce inside the kernel.
-/

/-- Rust `str::starts_with`. -/
def rustStartsWith (s pat : String) : Bool :=
  pat.data.isPrefixOf s.data

/-- Rust `str::trim` on a char list: drop Unicode whitespace from both
ends. -/
def trimChars (s : List Char) : List Char :=
  ((s.dropWhile Char.isWhitespace).reverse.dropWhile Char.isWhitespace).reverse

/-- Rust `str::trim_end` on a char list: drop Unicode whitespace from the
end. -/
def trimEndChars (s : List Char) : List Char :=
  (s.reverse.dropWhile Char.isWhitespace).reverse

/-- Rust `str::trim`. -/
def rustTrim (s : String) : String :=
  ⟨trimChars s.data⟩

/-- Helper for `rustSplitWhitespace`: scan the chars, accumulating the
current word in reverse. -/
def splitWhitespaceAux : List Char → List Char → List String
  | [], acc => if acc.isEmpty then [] else [⟨acc.reverse⟩]
  | c :: cs, acc =>
    if c.isWhitespace then
      if acc.isEmpty then splitWhitespaceAux cs []
      else ⟨acc.reverse⟩ :: splitWhitespaceAux cs []
    else splitWhitespaceAux cs (c :: acc)

/-- Rust `str::split_whitespace`: maximal non-whitespace runs, no empty
items. -/
def rustSplitWhitespace (s : String) : List String :=
  splitWhitespaceAux s.data []

/-- Helper for `splitOnChar`: scan the chars, accumulating the current piece
in reverse. -/
def splitOnCharAux (sep : Char) : List Char → List Char → List String
  | [], acc => [⟨acc.reverse⟩]
  | c :: cs, acc =>
    if c = sep then ⟨acc.reverse⟩ :: splitOnCharAux sep cs []
    else splitOnCharAux sep cs (c :: acc)

/-- Rust `str::split` with a single-char pattern: the pieces between the
separators, empties included. -/
def splitOnChar (s : String) (sep : Char) : List String :=
  splitOnCharAux sep s.data []

/-- Modelled from the spec: the `AgentProvider` enumeration lives in the
external `acore` crate (not under `src/`); the spec (§3) fixes its variants as
`Gemini | Claude | Codex | OpenCode | Dummy | Mock`. -/
inductive AgentProvider where
  | Gemini
  | Claude
  | Codex
  | OpenCode
  | Dummy
  | Mock
deriving DecidableEq, Repr

/-- Modelled from the spec: each provider has a stable lowercase "command
name" used in wire commands and display (`AgentProvider::command_name` is in
the external `acore` crate).  The names are pinned by §4.4 of the spec and by
the values `src/discord.rs` compares `command_name()` against. -/
def commandName : AgentProvider → String
  | .Gemini => "gemini"
  | .Claude => "claude"
  | .Codex => "codex"
  | .OpenCode => "opencode"
  | .Dummy => "dummy"
  | .Mock => "mock"

/-- The wire event union from `src/protocol.rs` (`ProtocolEvent`).  The
`BridgeSyncDone` variant is constructed by `src/bridge.rs` (line 171) and
matched by `src/discord.rs` (line 466) and is listed in the spec (§3), though
it is absent from the `protocol.rs` snapshot itself. -/
inductive ProtocolEvent where
  | Prompt (text : String) (provider : Option AgentProvider) (channel : Option String)
  | AgentChunk (chunk : String) (channel : Option String)
  | AgentDone (channel : Option String)
  | SystemMessage (msg : String) (channel : Option String)
  | StatusUpdate (is_processing : Bool) (channel : Option String)
  | SyncContext (context : String)
  | ProviderSwitched (provider : AgentProvider)
  | ModelSwitched (model : String)
  | BridgeSyncDone
deriving DecidableEq, Repr

/-- Constant `MAX_BACKLOG` from `src/bridge.rs`. -/
def MAX_BACKLOG : Nat := 100

/-- Constant `DEFAULT_PROVIDER` from `src/bridge.rs`. -/
def DEFAULT_PROVIDER : AgentProvider := .Gemini

/-- Constant `DEFAULT_GEMINI_MODEL` from `src/bridge.rs`. -/
def DEFAULT_GEMINI_MODEL : String := "auto-gemini-3"

/-- Constant `DEFAULT_CLAUDE_MODEL` from `src/bridge.rs`. -/
def DEFAULT_CLAUDE_MODEL : String := "claude-sonnet-4-6"

/-- Constant `DEFAULT_CODEX_MODEL` from `src/bridge.rs`. -/
def DEFAULT_CODEX_MODEL : String := "gpt-5.3-codex"

/-- Function `default_model_for_provider` from `src/bridge.rs`. -/
def default_model_for_provider : AgentProvider → Option String
  | .Gemini => some DEFAULT_GEMINI_MODEL
  | .Claude => some DEFAULT_CLAUDE_MODEL
  | .Codex => some DEFAULT_CODEX_MODEL
  | .Dummy => some "echo"
  | .Mock => some "mock-model"
  | .OpenCode => none

/-- Struct `ProviderPreset` from `src/bridge.rs`. -/
structure ProviderPreset where
  provider : AgentProvider
  model : String
deriving DecidableEq, Repr

/-- Struct `BridgeState` from `src/bridge.rs`.  The `session_manager` field is
an opaque handle into the external `acore` crate and carries no data relevant
to the claims, so it is not represented. -/
structure BridgeState where
  active_provider : AgentProvider
  active_model : Option String
  backlog : List ProtocolEvent
deriving DecidableEq, Repr

/-- The initial `BridgeState` built in `start_bridge` (`src/bridge.rs`
lines 88-93). -/
def initialBridgeState : BridgeState :=
  { active_provider := DEFAULT_PROVIDER
    active_model := default_model_for_provider DEFAULT_PROVIDER
    backlog := [] }

/-- The retention filter of the state-maintainer task (`src/bridge.rs`
lines 100-107): which event variants are pushed onto the backlog. -/
def retainedInBacklog : ProtocolEvent → Bool
  | .Prompt _ _ _ => true
  | .AgentChunk _ _ => true
  | .AgentDone _ => true
  | .SystemMessage _ _ => true
  | .ProviderSwitched _ => true
  | .ModelSwitched _ => true
  | .StatusUpdate _ _ => false
  | .SyncContext _ => false
  | .BridgeSyncDone => false

/-- Backlog update of the state-maintainer task (`src/bridge.rs`
lines 100-112): push the retained event, then pop the front when the length
exceeds `MAX_BACKLOG`. -/
def backlogStep (backlog : List ProtocolEvent) (event : ProtocolEvent) : List ProtocolEvent :=
  if retainedInBacklog event then
    let pushed := backlog ++ [event]
    if MAX_BACKLOG < pushed.length then pushed.drop 1 else pushed
  else backlog

/-- One iteration of the state-maintainer task (`src/bridge.rs` lines 98-121):
backlog retention, then the `ProviderSwitched` update (which also resets the
model to the provider default), then the `ModelSwitched` update. -/
def stateStep (s : BridgeState) (event : ProtocolEvent) : BridgeState :=
  let s1 : BridgeState := { s with backlog := backlogStep s.backlog event }
  let s2 : BridgeState :=
    match event with
    | .ProviderSwitched p =>
        { s1 with active_provider := p, active_model := default_model_for_provider p }
    | _ => s1
  match event with
  | .ModelSwitched m => { s2 with active_model := some m }
  | _ => s2

/-- The state-maintainer task run over a finite sequence of broadcast
events. -/
def runState (s : BridgeState) (events : List ProtocolEvent) : BridgeState :=
  events.foldl stateStep s

/-- The initial payload assembled by `handle_bridge_connection`
(`src/bridge.rs` lines 150-173), as the sequence of events written, in the
order the source pushes them onto the payload string. -/
def buildInitialPayload (context : String) (s : BridgeState) : List ProtocolEvent :=
  let payload : List ProtocolEvent := []
  let payload := if !context.isEmpty then payload ++ [.SyncContext context] else payload
  let payload := payload ++ [.ProviderSwitched s.active_provider]
  let payload :=
    match s.active_model with
    | some m => payload ++ [.ModelSwitched m]
    | none => payload
  let payload := payload ++ s.backlog
  payload ++ [.BridgeSyncDone]

/-- Function `discord_magic_provider_preset` from `src/bridge.rs`: recognise
the Discord-only provider shortcuts `p-gemini | p-codex | p-claude`. -/
def discord_magic_provider_preset (text : String) (channel : Option String) :
    Option ProviderPreset :=
  if !rustStartsWith (channel.getD "") "discord:" then none
  else if rustTrim text = "p-gemini" then some ⟨.Gemini, DEFAULT_GEMINI_MODEL⟩
  else if rustTrim text = "p-codex" then some ⟨.Codex, DEFAULT_CODEX_MODEL⟩
  else if rustTrim text = "p-claude" then some ⟨.Claude, DEFAULT_CLAUDE_MODEL⟩
  else none

/-- Function `apply_provider_preset` from `src/bridge.rs`, as the sequence of
events it sends on the broadcast channel, in order. -/
def apply_provider_preset (channel : Option String) (preset : ProviderPreset) :
    List ProtocolEvent :=
  [.ProviderSwitched preset.provider,
   .ModelSwitched preset.model,
   .SystemMessage
     ("Switched to " ++ commandName preset.provider ++ ":" ++ preset.model ++ ".")
     channel]

/-- Provider-name table of the `/provider` command in `handle_command`
(`src/bridge.rs` lines 291-299). -/
def providerOfCommandArg (name : String) : Option AgentProvider :=
  if name = "gemini" then some .Gemini
  else if name = "claude" then some .Claude
  else if name = "codex" then some .Codex
  else if name = "opencode" then some .OpenCode
  else if name = "dummy" ∨ name = "dummy-bot" ∨ name = "dummybot" then some .Dummy
  else if name = "mock" then some .Mock
  else none

/-- Function `handle_command` from `src/bridge.rs` (lines 270-326): returns
the updated bridge state and the events sent on the broadcast channel, in
order.  `runAmem` abstracts the captured stdout of the external `amem`
subprocess (used by `/search` and `/today`). -/
def handle_command (runAmem : List String → String) (s : BridgeState)
    (text : String) : BridgeState × List ProtocolEvent :=
  let parts := rustSplitWhitespace ⟨text.data.drop 1⟩
  let cmd := (parts[0]?).getD ""
  if cmd = "search" then
    let query := String.intercalate " " (parts.drop 1)
    let result := runAmem ["search", query]
    (s, [.SystemMessage ("Search results:\n" ++ result) (some "bridge")])
  else if cmd = "today" then
    let result := runAmem ["today"]
    (s, [.SystemMessage ("Today:\n" ++ result) (some "bridge")])
  else if cmd = "provider" then
    match parts[1]? with
    | some name =>
      match providerOfCommandArg name with
      | some provider =>
        (s, [.ProviderSwitched provider] ++
          (match default_model_for_provider provider with
           | some model => [.ModelSwitched model]
           | none => []))
      | none => (s, [])
    | none => (s, [])
  else if cmd = "model" then
    match parts[1]? with
    | some modelName => (s, [.ModelSwitched modelName])
    | none => (s, [])
  else if cmd = "clear" then
    let s2 : BridgeState :=
      { s with backlog := [],
               active_model := default_model_for_provider s.active_provider }
    (s2, [.SystemMessage "Cleared." (some "bridge")] ++
      (match s2.active_model with
       | some model => [.ModelSwitched model]
       | none => []))
  else (s, [])

/-- Arguments handed to the spawned execution task
(`SessionManager::execute_with_resume_with_model` call in
`handle_bridge_connection`, `src/bridge.rs` lines 225-231). -/
structure ExecTask where
  provider : AgentProvider
  model : Option String
  text : String
  channel : Option String
deriving DecidableEq, Repr

/-- The inbound-`Prompt` handling of `handle_bridge_connection`
(`src/bridge.rs` lines 187-243): first the Discord magic-preset check, then
the slash-command dispatch, otherwise provider/model selection, the two
normalised broadcasts and the spawned execution task.  Returns the updated
state, the events broadcast synchronously (in order) and the spawned task, if
any. -/
def handleInboundPrompt (runAmem : List String → String) (s : BridgeState)
    (text : String) (provider : Option AgentProvider) (channel : Option String) :
    BridgeState × List ProtocolEvent × Option ExecTask :=
  match discord_magic_provider_preset text channel with
  | some preset => (s, apply_provider_preset channel preset, none)
  | none =>
    if rustStartsWith text "/" then
      let r := handle_command runAmem s text
      (r.1, r.2, none)
    else
      let selected_provider :=
        match provider with
        | some t => t
        | none => s.active_provider
      let selected_model :=
        if selected_provider = s.active_provider then s.active_model
        else default_model_for_provider selected_provider
      (s, [.Prompt text (some selected_provider) channel,
           .StatusUpdate true channel],
       some ⟨selected_provider, selected_model, text, channel⟩)

/-- The broadcasts of one spawned execution task (`src/bridge.rs`
lines 221-242): the streamed chunks, on error the failure `SystemMessage`,
then always `AgentDone` followed by `StatusUpdate{false}`.  The task is a
total function of the session-manager outcome: an agent failure is consumed
here and never propagates to the connection handler or the listener. -/
def execTaskBroadcast (chunks : List String) (result : Except String Unit)
    (channel : Option String) : List ProtocolEvent :=
  let log := chunks.map (fun c => ProtocolEvent.AgentChunk c channel)
  let log :=
    match result with
    | .ok _ => log
    | .error e => log ++ [.SystemMessage ("Agent execution failed: " ++ e) channel]
  let log := log ++ [.AgentDone channel]
  log ++ [.StatusUpdate false channel]

/-- Constant `DISCORD_SAFE_MESSAGE_LIMIT` from `src/discord.rs`. -/
def DISCORD_SAFE_MESSAGE_LIMIT : Nat := 1900

/-- Constant `DEFAULT_DISCORD_PROVIDER_NAME` from `src/discord.rs`. -/
def DEFAULT_DISCORD_PROVIDER_NAME : String := "gemini"

/-- Constant `DEFAULT_DISCORD_MODEL_NAME` from `src/discord.rs`. -/
def DEFAULT_DISCORD_MODEL_NAME : String := "auto-gemini-3"

/-- Function `default_model_for_provider_name` from `src/discord.rs`. -/
def default_model_for_provider_name (provider_name : String) : Option String :=
  if provider_name = "gemini" then some DEFAULT_DISCORD_MODEL_NAME
  else if provider_name = "claude" then some "claude-sonnet-4-6"
  else if provider_name = "codex" then some "gpt-5.3-codex"
  else if provider_name = "dummy" then some "echo"
  else if provider_name = "mock" then some "mock-model"
  else none

/-- Function `truncate_for_discord` from `src/discord.rs`: trim the end, and
when more than 1900 chars remain keep the first 1899 and append an
ellipsis.  Char counts are Unicode scalar counts, as in the source. -/
def truncate_for_discord (content : String) : String :=
  let trimmed := trimEndChars content.data
  if trimmed.length ≤ DISCORD_SAFE_MESSAGE_LIMIT then ⟨trimmed⟩
  else ⟨trimmed.take (DISCORD_SAFE_MESSAGE_LIMIT - 1) ++ ['…']⟩

/-- The `__provider:model__` suffix computed by
`format_discord_agent_reply_with_status` (`src/discord.rs` lines 214-227):
provider and model are trimmed and, when empty, replaced by `gemini`
respectively the provider's default (or `unknown`). -/
def discordSuffixOf (provider model : String) : String :=
  let provider1 := rustTrim provider
  let provider2 :=
    if provider1.data.isEmpty then DEFAULT_DISCORD_PROVIDER_NAME else provider1
  let model1 := rustTrim model
  let model2 :=
    if model1.data.isEmpty then
      (default_model_for_provider_name provider2).getD "unknown"
    else model1
  "__" ++ provider2 ++ ":" ++ model2 ++ "__"

/-- Function `format_discord_agent_reply_with_status` from `src/discord.rs`
(lines 213-258). -/
def format_discord_agent_reply_with_status (content provider model : String) :
    String :=
  let suffix := discordSuffixOf provider model
  let body := trimEndChars content.data
  if body.isEmpty then truncate_for_discord suffix
  else
    let separator := "\n\n"
    let reserved := suffix.data.length + separator.data.length
    if DISCORD_SAFE_MESSAGE_LIMIT ≤ reserved then truncate_for_discord suffix
    else
      let body_budget := DISCORD_SAFE_MESSAGE_LIMIT - reserved
      let body_part :=
        if body.length ≤ body_budget then body
        else if body_budget ≤ 1 then ['…']
        else body.take (body_budget - 1) ++ ['…']
      String.mk body_part ++ separator ++ suffix

/-- Struct `DiscordUser` from `src/discord.rs`. -/
structure DiscordUser where
  id : String
  username : String
  bot : Option Bool
deriving DecidableEq, Repr

/-- Struct `DiscordMessage` from `src/discord.rs`. -/
structure DiscordMessage where
  id : String
  channel_id : String
  content : String
  author : DiscordUser
deriving DecidableEq, Repr

/-- Function `should_forward_discord_message` from `src/discord.rs`
(lines 153-175).  The `HashSet` of allowed user ids is modelled as a list
queried with set membership. -/
def should_forward_discord_message (msg : DiscordMessage)
    (bot_user_id : Option String) (allowed_user_ids : Option (List String)) :
    Bool :=
  if (match bot_user_id with
      | some bot_id => msg.author.id == bot_id
      | none => false) then false
  else if msg.author.bot.getD false then false
  else if (trimChars msg.content.data).isEmpty then false
  else
    match allowed_user_ids with
    | some ids => if msg.author.id ∈ ids then true else false
    | none => true

/-- Function `parse_allowed_discord_user_ids` from `src/discord.rs`
(lines 139-145): split the raw value on commas, trim each entry, drop the
empty ones; the resulting `HashSet` is modelled as the deduplicated list. -/
def parse_allowed_discord_user_ids (raw : String) : List String :=
  ((((splitOnChar raw ',').map rustTrim).filter (fun s => !s.data.isEmpty))).dedup

/-- Function `load_allowed_discord_user_ids_from_env` from `src/discord.rs`
(lines 147-151); `env` is the value of `DISCORD_ALLOWED_USER_IDS` (`none`
when the variable is unset). -/
def load_allowed_discord_user_ids_from_env (env : Option String) :
    Option (List String) :=
  match env with
  | none => none
  | some raw =>
    let ids := parse_allowed_discord_user_ids raw
    if ids.isEmpty then none else some ids

/-- Rust `HashMap::insert` on an association list: replace the value when the
key is present, append otherwise (hash order is not observable through the
adapters' logic modelled here). -/
def mapInsert {α : Type} (m : List (String × α)) (k : String) (v : α) :
    List (String × α) :=
  if (List.lookup k m).isSome then
    m.map (fun p => if p.1 == k then (k, v) else p)
  else m ++ [(k, v)]

/-- Rust `HashMap::remove` on an association list (the removed value is read
separately with `List.lookup`). -/
def mapRemove {α : Type} (m : List (String × α)) (k : String) :
    List (String × α) :=
  m.filter (fun p => !(p.1 == k))

/-- Helper for `rustReplace`: scan the chars left to right; on each
non-overlapping occurrence of `target` emit `repl`, then skip the rest of
the matched chars one at a time (the counter makes the recursion
structural). -/
def replaceScan (target repl : List Char) : List Char → Nat → List Char
  | [], _ => []
  | _ :: cs, skip + 1 => replaceScan target repl cs skip
  | c :: cs, 0 =>
    if target ≠ [] ∧ target.isPrefixOf (c :: cs) then
      repl ++ replaceScan target repl cs (target.length - 1)
    else c :: replaceScan target repl cs 0

/-- Rust `str::replace`. -/
def rustReplace (s target repl : String) : String :=
  ⟨replaceScan target.data repl.data s.data 0⟩

/-- Function `discord_channel_id_from_bridge_channel` from `src/discord.rs`
(lines 188-194): the second piece of `discord:<channel_id>:<message_id>`,
when present and non-empty. -/
def discord_channel_id_from_bridge_channel (channel : String) : Option String :=
  match splitOnChar channel ':' with
  | "discord" :: channel_id :: _ =>
    if channel_id.data.isEmpty then none else some channel_id
  | _ => none

/-- Char index of the last `"\n\n"` occurrence (Rust `str::rfind("\n\n")` in
`extract_discord_answer`). -/
def rfindDoubleNewline : List Char → Option Nat
  | [] => none
  | [_] => none
  | c :: c2 :: rest =>
    match rfindDoubleNewline (c2 :: rest) with
    | some i => some (i + 1)
    | none => if c = '\n' ∧ c2 = '\n' then some 0 else none

/-- A found `"\n\n"` occurrence lies two chars before the end at the
latest. -/
theorem rfindDoubleNewline_le (s : List Char) (i : Nat)
    (h : rfindDoubleNewline s = some i) : i + 2 ≤ s.length := by
  induction s generalizing i with
  | nil => simp [rfindDoubleNewline] at h
  | cons c rest ih =>
    cases rest with
    | nil => simp [rfindDoubleNewline] at h
    | cons c2 rest2 =>
      simp only [rfindDoubleNewline] at h
      cases hr : rfindDoubleNewline (c2 :: rest2) with
      | some j =>
        rw [hr] at h
        have hji : j + 1 = i := by simpa using h
        have hj := ih j hr
        simp only [List.length_cons] at hj ⊢
        omega
      | none =>
        rw [hr] at h
        by_cases hc : c = '\n' ∧ c2 = '\n'
        · rw [if_pos hc] at h
          have h0 : (0 : Nat) = i := by simpa using h
          simp only [List.length_cons]
          omega
        · rw [if_neg hc] at h
          exact absurd h (by simp)

/-- The backward walk of `extract_discord_answer` (`src/discord.rs`
lines 636-652): at the last `"\n\n"`, take the trailing candidate; keep it
when it is substantive (at least 30 chars), truncating its front when it is
over the limit; otherwise recurse on the part before the separator. -/
def extractSearchLoop (search : List Char) : Option (List Char) :=
  match hfind : rfindDoubleNewline search with
  | none => none
  | some pos =>
    let candidate := trimChars (search.drop (pos + 2))
    if 30 ≤ candidate.length then
      if candidate.length ≤ 1900 then some candidate
      else some ('…' :: candidate.drop (candidate.length - 1899))
    else extractSearchLoop (search.take pos)
termination_by search.length
decreasing_by
  have := rfindDoubleNewline_le search pos hfind
  simp only [List.length_take]
  omega

/-- Function `extract_discord_answer` from `src/discord.rs`
(lines 626-659). -/
def extract_discord_answer (content : String) : String :=
  let trimmed := trimEndChars content.data
  if trimmed.length ≤ 1900 then ⟨trimmed⟩
  else
    match extractSearchLoop trimmed with
    | some r => ⟨r⟩
    | none => ⟨'…' :: trimmed.drop (trimmed.length - 1899)⟩

/-- Struct `DiscordReplyBuffer` from `src/discord.rs`. -/
structure DiscordReplyBuffer where
  content : String
  provider : String
  model : String
deriving DecidableEq, Repr

/-- The bridge-facing state of `start_discord_adapter` (`src/discord.rs`
lines 302-308): provider/model tracking, the per-channel reply buffers, the
per-channel typing tasks (modelled by their key set) and the
`bridge_sync_done` flag.  Gateway fields (heartbeat, sequence, presence,
`bot_user_id`) do not influence which bridge events produce platform
messages and are omitted. -/
structure DiscordAdapterState where
  active_provider_name : String
  active_model_name : String
  reply_buffers : List (String × DiscordReplyBuffer)
  typing_channels : List String
  bridge_sync_done : Bool
deriving DecidableEq, Repr

/-- The initial adapter state (`src/discord.rs` lines 302-306). -/
def initialDiscordAdapterState : DiscordAdapterState :=
  { active_provider_name := DEFAULT_DISCORD_PROVIDER_NAME
    active_model_name := DEFAULT_DISCORD_MODEL_NAME
    reply_buffers := []
    typing_channels := []
    bridge_sync_done := false }

/-- One bridge protocol event processed by the Discord adapter
(`src/discord.rs` lines 455-575): provider/model tracking first, then the
`bridge_sync_done` gate, then the per-channel buffer lifecycle.  The
returned list holds the messages delivered through the Discord REST API
(`send_discord_message`) as `(discord_channel_id, content)` pairs; presence
updates and typing POSTs are gateway/side-channel traffic, not platform
messages. -/
def discordBridgeEventStep (st : DiscordAdapterState) (event : ProtocolEvent) :
    DiscordAdapterState × List (String × String) :=
  let st :=
    match event with
    | .ProviderSwitched provider =>
      let name := commandName provider
      { st with active_provider_name := name,
                active_model_name :=
                  (match default_model_for_provider_name name with
                  | some model => model
                  | none => st.active_model_name) }
    | _ => st
  let st :=
    match event with
    | .ModelSwitched model => { st with active_model_name := model }
    | _ => st
  if !st.bridge_sync_done then
    match event with
    | .BridgeSyncDone => ({ st with bridge_sync_done := true }, [])
    | _ => (st, [])
  else
    match event with
    | .Prompt _ provider (some ch) =>
      if rustStartsWith ch "discord:" then
        let provider_name :=
          match provider with
          | some p => commandName p
          | none => st.active_provider_name
        let model_name :=
          if (trimChars st.active_model_name.data).isEmpty then
            (default_model_for_provider_name provider_name).getD "unknown"
          else st.active_model_name
        ({ st with
            reply_buffers := mapInsert st.reply_buffers ch
              ⟨"", provider_name, model_name⟩,
            typing_channels :=
              (match discord_channel_id_from_bridge_channel ch with
              | some _ =>
                if st.typing_channels.contains ch then st.typing_channels
                else st.typing_channels ++ [ch]
              | none => st.typing_channels) }, [])
      else (st, [])
    | .AgentChunk chunk (some ch) =>
      if rustStartsWith ch "discord:" then
        match List.lookup ch st.reply_buffers with
        | some buf =>
          let buf2 : DiscordReplyBuffer := { buf with content := buf.content ++ chunk }
          ({ st with reply_buffers := mapInsert st.reply_buffers ch buf2 }, [])
        | none => (st, [])
      else (st, [])
    | .AgentDone (some ch) =>
      if rustStartsWith ch "discord:" then
        let st2 := { st with
          typing_channels := st.typing_channels.filter (fun k => !(k == ch)) }
        match List.lookup ch st2.reply_buffers with
        | some buf =>
          let st3 := { st2 with reply_buffers := mapRemove st2.reply_buffers ch }
          if !buf.content.data.isEmpty then
            match discord_channel_id_from_bridge_channel ch with
            | some discord_channel_id =>
              (st3, [(discord_channel_id,
                format_discord_agent_reply_with_status
                  (extract_discord_answer buf.content) buf.provider buf.model)])
            | none => (st3, [])
          else (st3, [])
        | none => (st2, [])
      else (st, [])
    | .SystemMessage msg (some ch) =>
      if rustStartsWith ch "discord:" then
        match discord_channel_id_from_bridge_channel ch with
        | some discord_channel_id =>
          (st, [(discord_channel_id,
            format_discord_agent_reply_with_status msg
              st.active_provider_name st.active_model_name)])
        | none => (st, [])
      else (st, [])
    | _ => (st, [])

/-- The Discord adapter's bridge-event loop over a list of received events,
accumulating the outbound platform messages in order. -/
def discordBridgeEventRun (st : DiscordAdapterState) :
    List ProtocolEvent → DiscordAdapterState × List (String × String)
  | [] => (st, [])
  | e :: rest =>
    let r := discordBridgeEventStep st e
    let r2 := discordBridgeEventRun r.1 rest
    (r2.1, r.2 ++ r2.2)

/-- The `slack_channel` extraction of the Slack adapter's `AgentDone` arm
(`src/slack.rs` lines 155-157): `splitn(3, ':')` and the third piece, or the
empty string. -/
def slackChannelOfBridgeChannel (ch : String) : String :=
  match splitOnChar ch ':' with
  | _ :: _ :: rest =>
    if rest.isEmpty then "" else String.intercalate ":" rest
  | _ => ""

/-- One bridge protocol event processed by the Slack adapter
(`src/slack.rs` lines 135-168).  There is no `bridge_sync_done` tracking in
the Slack adapter: every event is handled the same way, whether replayed or
live.  The returned list holds the messages delivered through
`send_slack_message` as `(slack_channel, text)` pairs. -/
def slackBridgeEventStep (buffers : List (String × String))
    (event : ProtocolEvent) :
    List (String × String) × List (String × String) :=
  match event with
  | .Prompt _ _ (some ch) =>
    if rustStartsWith ch "slack:" then (mapInsert buffers ch "", [])
    else (buffers, [])
  | .AgentChunk chunk (some ch) =>
    if rustStartsWith ch "slack:" then
      match List.lookup ch buffers with
      | some content => (mapInsert buffers ch (content ++ chunk), [])
      | none => (mapInsert buffers ch chunk, [])
    else (buffers, [])
  | .AgentDone (some ch) =>
    if rustStartsWith ch "slack:" then
      match List.lookup ch buffers with
      | some content =>
        (mapRemove buffers ch,
         if !content.data.isEmpty then [(slackChannelOfBridgeChannel ch, content)]
         else [])
      | none => (buffers, [])
    else (buffers, [])
  | _ => (buffers, [])

/-- The Slack adapter's bridge-event loop, accumulating outbound platform
messages in order. -/
def slackBridgeEventRun (buffers : List (String × String)) :
    List ProtocolEvent → List (String × String) × List (String × String)
  | [] => (buffers, [])
  | e :: rest =>
    let r := slackBridgeEventStep buffers e
    let r2 := slackBridgeEventRun r.1 rest
    (r2.1, r.2 ++ r2.2)

/-- One bridge protocol event processed by the ntfy adapter (`src/ntfy.rs`
lines 64-98).  There is no `bridge_sync_done` tracking.  The snapshot's
match arms bind no channel on `AgentChunk`/`AgentDone` (they predate the
channel fields), so a chunk is appended to the first open buffer and
`AgentDone` flushes every buffer.  The returned list holds the message
bodies handed to `send_to_ntfy`. -/
def ntfyBridgeEventStep (buffers : List (String × String))
    (event : ProtocolEvent) : List (String × String) × List String :=
  match event with
  | .AgentChunk chunk _ =>
    (match buffers with
     | (k, v) :: rest => (k, v ++ chunk) :: rest
     | [] => [], [])
  | .Prompt _ _ (some ch) =>
    if rustStartsWith ch "ntfy:" then
      (mapInsert buffers (rustReplace ch "ntfy:" "") "", [])
    else (buffers, [])
  | .AgentDone _ =>
    ([], buffers.filterMap
      (fun p => if p.2.data.isEmpty then none else some p.2))
  | _ => (buffers, [])

/-- The ntfy adapter's bridge-event loop, accumulating outbound topic posts
in order. -/
def ntfyBridgeEventRun (buffers : List (String × String)) :
    List ProtocolEvent → List (String × String) × List String
  | [] => (buffers, [])
  | e :: rest =>
    let r := ntfyBridgeEventStep buffers e
    let r2 := ntfyBridgeEventRun r.1 rest
    (r2.1, r.2 ++ r2.2)

/-- A replayed (pre-`BridgeSyncDone`) backlog fragment on a Slack channel:
the prompt, its buffered answer and its completion marker. -/
def slackReplayExample : List ProtocolEvent :=
  [.Prompt "question" none (some "slack:U1:C1"),
   .AgentChunk "old answer" (some "slack:U1:C1"),
   .AgentDone (some "slack:U1:C1")]

/-- A replayed (pre-`BridgeSyncDone`) backlog fragment on an ntfy channel. -/
def ntfyReplayExample : List ProtocolEvent :=
  [.Prompt "question" none (some "ntfy:m1"),
   .AgentChunk "old answer" (some "ntfy:m1"),
   .AgentDone (some "ntfy:m1")]

/-- Everything written to one accepted connection: `handle_bridge_connection`
writes the whole initial payload (one `write_all`, line 174) before entering
the duplex loop, so broadcast events forwarded by the loop (`loopEvents`)
follow the payload. -/
def connectionTranscript (context : String) (s : BridgeState)
    (loopEvents : List ProtocolEvent) : List ProtocolEvent :=
  buildInitialPayload context s ++ loopEvents

end Acomm

namespace Acomm

/-- The backlog after a run of the state-maintainer task only depends on the
backlog component of the state. -/
theorem runState_backlog (s : BridgeState) (events : List ProtocolEvent) :
    (runState s events).backlog = events.foldl backlogStep s.backlog := by
  induction events generalizing s with
  | nil => rfl
  | cons e rest ih =>
    have hstep : (stateStep s e).backlog = backlogStep s.backlog e := by
      unfold stateStep
      cases e <;> rfl
    simp [runState, List.foldl_cons] at ih ⊢
    rw [ih, hstep]

/-- Characterization of the backlog fold: starting from a backlog within the
bound, the result is the suffix of the retained events (appended to the start
backlog) that fits in `MAX_BACKLOG` entries. -/
theorem foldl_backlogStep_eq (events : List ProtocolEvent) (b : List ProtocolEvent)
    (hb : b.length ≤ MAX_BACKLOG) :
    events.foldl backlogStep b =
      (b ++ events.filter retainedInBacklog).drop
        ((b ++ events.filter retainedInBacklog).length - MAX_BACKLOG) := by
  induction events generalizing b with
  | nil =>
    have h0 : b.length - MAX_BACKLOG = 0 := by omega
    simp [h0]
  | cons e rest ih =>
    by_cases hr : retainedInBacklog e
    · have hfilter : (e :: rest).filter retainedInBacklog =
          e :: rest.filter retainedInBacklog := by
        simp [List.filter_cons, hr]
      have hstep : backlogStep b e =
          if MAX_BACKLOG < (b ++ [e]).length then (b ++ [e]).drop 1 else b ++ [e] := by
        simp [backlogStep, hr]
      by_cases hlong : MAX_BACKLOG < (b ++ [e]).length
      · -- the push overflows: the front element is evicted
        have hlen : b.length = MAX_BACKLOG := by
          simp at hlong
          omega
        have hb2 : ((b ++ [e]).drop 1).length ≤ MAX_BACKLOG := by
          simp [hlen]
        rw [List.foldl_cons, hstep, if_pos hlong, ih ((b ++ [e]).drop 1) hb2]
        have hdrop : ((b ++ [e]).drop 1) ++ rest.filter retainedInBacklog =
            ((b ++ [e]) ++ rest.filter retainedInBacklog).drop 1 :=
          (List.drop_append_of_le_length (by simp)).symm
        rw [hdrop, List.drop_drop]
        have hassoc : b ++ (e :: rest.filter retainedInBacklog) =
            (b ++ [e]) ++ rest.filter retainedInBacklog := by simp
        rw [hfilter, hassoc]
        congr 1
        simp [hlen]
        omega
      · -- the push stays within the bound
        have hb2 : (b ++ [e]).length ≤ MAX_BACKLOG := by
          simp at hlong ⊢
          omega
        rw [List.foldl_cons, hstep, if_neg hlong, ih (b ++ [e]) hb2, hfilter]
        simp
    · have hstep : backlogStep b e = b := by simp [backlogStep, hr]
      have hfilter : (e :: rest).filter retainedInBacklog =
          rest.filter retainedInBacklog := by
        simp [List.filter_cons, hr]
      rw [List.foldl_cons, hstep, ih b hb, hfilter]

/-- C2: after the state-maintainer task processes any finite sequence of
broadcast events from the initial state, the backlog contains only retainable
variants (`Prompt`, `AgentChunk`, `AgentDone`, `SystemMessage`,
`ProviderSwitched`, `ModelSwitched`), its length never exceeds `MAX_BACKLOG`
(100), and once more than 100 retainable events have been published the
backlog is exactly the newest 100 of them in insertion order. -/
theorem backlog_retention_bound_and_newest (events : List ProtocolEvent) :
    (∀ e ∈ (runState initialBridgeState events).backlog, retainedInBacklog e = true) ∧
    (runState initialBridgeState events).backlog.length ≤ MAX_BACKLOG ∧
    (MAX_BACKLOG < (events.filter retainedInBacklog).length →
      (runState initialBridgeState events).backlog =
        (events.filter retainedInBacklog).drop
          ((events.filter retainedInBacklog).length - MAX_BACKLOG) ∧
      (runState initialBridgeState events).backlog.length = MAX_BACKLOG) := by
  have hchar : (runState initialBridgeState events).backlog =
      (events.filter retainedInBacklog).drop
        ((events.filter retainedInBacklog).length - MAX_BACKLOG) := by
    rw [runState_backlog]
    have hfold := foldl_backlogStep_eq events [] (by simp)
    simpa [initialBridgeState] using hfold
  refine ⟨?_, ?_, ?_⟩
  · intro e he
    rw [hchar] at he
    exact List.of_mem_filter (List.mem_of_mem_drop he)
  · rw [hchar]
    simp
    omega
  · intro hgt
    refine ⟨hchar, ?_⟩
    rw [hchar]
    simp
    omega

/-- Witness for C2 at a concrete input: 101 retainable events leave exactly
the newest 100 in the backlog. -/
theorem backlog_retention_bound_and_newest_witness :
    MAX_BACKLOG <
      ((List.replicate 101 (ProtocolEvent.AgentDone none)).filter retainedInBacklog).length ∧
    ((runState initialBridgeState
        (List.replicate 101 (ProtocolEvent.AgentDone none))).backlog =
      ((List.replicate 101 (ProtocolEvent.AgentDone none)).filter retainedInBacklog).drop
        (((List.replicate 101 (ProtocolEvent.AgentDone none)).filter
            retainedInBacklog).length - MAX_BACKLOG) ∧
     (runState initialBridgeState
        (List.replicate 101 (ProtocolEvent.AgentDone none))).backlog.length = MAX_BACKLOG) :=
  ⟨by decide,
   (backlog_retention_bound_and_newest
      (List.replicate 101 (ProtocolEvent.AgentDone none))).2.2 (by decide)⟩

/-- C3: for every state, processing `ProviderSwitched p` sets the active
provider to `p` and resets the active model to the provider default (which is
`none` exactly for `OpenCode`), and processing `ModelSwitched m` sets the
active model to `some m` regardless of the current provider. -/
theorem provider_and_model_switch_updates (s : BridgeState) (p : AgentProvider)
    (m : String) :
    (stateStep s (.ProviderSwitched p)).active_provider = p ∧
    (stateStep s (.ProviderSwitched p)).active_model = default_model_for_provider p ∧
    (default_model_for_provider p = none ↔ p = .OpenCode) ∧
    (stateStep s (.ModelSwitched m)).active_model = some m := by
  refine ⟨rfl, rfl, ?_, rfl⟩
  cases p <;> simp [default_model_for_provider]

/-- C1: the initial payload written to an accepted broker connection is
exactly: an optional `SyncContext` (present iff the fetched context is
non-empty), one `ProviderSwitched` with the active provider, one
`ModelSwitched` iff the active model is set, the backlog in insertion order,
and a final `BridgeSyncDone`; every broadcast event forwarded by the duplex
loop comes strictly after the `BridgeSyncDone` line. -/
theorem initial_payload_strict_sequence (context : String) (s : BridgeState)
    (loopEvents : List ProtocolEvent) :
    connectionTranscript context s loopEvents =
      (if context.isEmpty then [] else [ProtocolEvent.SyncContext context])
        ++ [ProtocolEvent.ProviderSwitched s.active_provider]
        ++ (match s.active_model with
            | some m => [ProtocolEvent.ModelSwitched m]
            | none => [])
        ++ s.backlog
        ++ [ProtocolEvent.BridgeSyncDone]
        ++ loopEvents := by
  unfold connectionTranscript buildInitialPayload
  cases h : context.isEmpty <;> cases s.active_model <;> simp [h]

/-- Every slash command broadcasts at most two events (`src/bridge.rs`
lines 270-326): needed to show a command dispatch can never be mistaken for
the three-event magic-preset short circuit. -/
theorem handle_command_events_short (runAmem : List String → String)
    (s : BridgeState) (text : String) :
    (handle_command runAmem s text).2.length ≤ 2 := by
  simp only [handle_command]
  repeat' split
  all_goals simp

/-- C4: an inbound `Prompt` that is neither a Discord magic preset nor a
slash command selects `provider.unwrap_or(active_provider)` as provider,
keeps the active model when that provider is the active one and otherwise
takes the selected provider's default, then broadcasts the normalised
`Prompt` followed by `StatusUpdate{true}` and spawns the execution task with
the selection. -/
theorem prompt_policy_normalizes_and_broadcasts (runAmem : List String → String)
    (s : BridgeState) (text : String) (provider : Option AgentProvider)
    (channel : Option String)
    (hpreset : discord_magic_provider_preset text channel = none)
    (hslash : rustStartsWith text "/" = false) :
    handleInboundPrompt runAmem s text provider channel =
      (s, [.Prompt text (some (provider.getD s.active_provider)) channel,
           .StatusUpdate true channel],
       some ⟨provider.getD s.active_provider,
             if provider.getD s.active_provider = s.active_provider then s.active_model
             else default_model_for_provider (provider.getD s.active_provider),
             text, channel⟩) := by
  unfold handleInboundPrompt
  rw [hpreset]
  cases provider <;> simp [hslash]

/-- Witness for C4 at a concrete input: a plain prompt on the `tui` channel
with no provider override. -/
theorem prompt_policy_normalizes_and_broadcasts_witness :
    handleInboundPrompt (fun _ => "") initialBridgeState "hello" none (some "tui") =
      (initialBridgeState,
       [.Prompt "hello" (some AgentProvider.Gemini) (some "tui"),
        .StatusUpdate true (some "tui")],
       some ⟨AgentProvider.Gemini, some "auto-gemini-3", "hello", some "tui"⟩) :=
  (prompt_policy_normalizes_and_broadcasts (fun _ => "") initialBridgeState
      "hello" none (some "tui") (by decide) (by decide)).trans (by decide)

/-- C5: the spawned execution task always broadcasts `AgentDone` followed by
`StatusUpdate{false}` as its two final events, in the success and in the
error case; in the error case the failure `SystemMessage` comes right before
`AgentDone`.  The task's broadcast log is a total function of the
session-manager result, so an agent failure never terminates the connection
or the broker. -/
theorem exec_task_always_done_then_status (chunks : List String)
    (result : Except String Unit) (channel : Option String) :
    execTaskBroadcast chunks (.ok ()) channel =
      chunks.map (fun c => ProtocolEvent.AgentChunk c channel) ++
        [.AgentDone channel, .StatusUpdate false channel] ∧
    (∀ e, execTaskBroadcast chunks (.error e) channel =
      chunks.map (fun c => ProtocolEvent.AgentChunk c channel) ++
        [.SystemMessage ("Agent execution failed: " ++ e) channel,
         .AgentDone channel, .StatusUpdate false channel]) ∧
    ∃ front, execTaskBroadcast chunks result channel =
      front ++ [.AgentDone channel, .StatusUpdate false channel] := by
  refine ⟨by simp [execTaskBroadcast], fun e => by simp [execTaskBroadcast], ?_⟩
  cases result with
  | ok u =>
    exact ⟨chunks.map (fun c => ProtocolEvent.AgentChunk c channel),
      by simp [execTaskBroadcast]⟩
  | error e =>
    exact ⟨chunks.map (fun c => ProtocolEvent.AgentChunk c channel) ++
        [.SystemMessage ("Agent execution failed: " ++ e) channel],
      by simp [execTaskBroadcast]⟩

/-- The exact three-event broadcast of a magic-preset short circuit, with the
model being the selected provider's default. -/
def magicShortCircuitEvents (channel : Option String) (P : AgentProvider) :
    List ProtocolEvent :=
  [.ProviderSwitched P,
   .ModelSwitched ((default_model_for_provider P).getD ""),
   .SystemMessage
     ("Switched to " ++ commandName P ++ ":" ++
        (default_model_for_provider P).getD "" ++ ".")
     channel]

/-- C6: an inbound `Prompt` is short-circuited — broadcasting exactly
`ProviderSwitched{P}`, `ModelSwitched{default_for(P)}` and the
`SystemMessage{"Switched to <provider>:<model>."}` on the same channel, with
no execution task — iff the channel begins with `discord:` and the trimmed
text is one of `p-gemini`, `p-codex`, `p-claude`; and `P` is then the
provider corresponding to the matched preset text. -/
theorem magic_preset_short_circuit_iff (runAmem : List String → String)
    (s : BridgeState) (text : String) (provider : Option AgentProvider)
    (channel : Option String) :
    ((∃ P, handleInboundPrompt runAmem s text provider channel =
        (s, magicShortCircuitEvents channel P, none)) ↔
      (rustStartsWith (channel.getD "") "discord:" = true ∧
        (rustTrim text = "p-gemini" ∨ rustTrim text = "p-codex" ∨ rustTrim text = "p-claude"))) ∧
    (rustStartsWith (channel.getD "") "discord:" = true →
      (rustTrim text = "p-gemini" →
        handleInboundPrompt runAmem s text provider channel =
          (s, magicShortCircuitEvents channel .Gemini, none)) ∧
      (rustTrim text = "p-codex" →
        handleInboundPrompt runAmem s text provider channel =
          (s, magicShortCircuitEvents channel .Codex, none)) ∧
      (rustTrim text = "p-claude" →
        handleInboundPrompt runAmem s text provider channel =
          (s, magicShortCircuitEvents channel .Claude, none))) := by
  have hGem : rustStartsWith (channel.getD "") "discord:" = true →
      rustTrim text = "p-gemini" →
      handleInboundPrompt runAmem s text provider channel =
        (s, magicShortCircuitEvents channel .Gemini, none) := by
    intro hd ht
    have hpre : discord_magic_provider_preset text channel =
        some ⟨.Gemini, DEFAULT_GEMINI_MODEL⟩ := by
      simp [discord_magic_provider_preset, hd, ht]
    simp [handleInboundPrompt, hpre, apply_provider_preset,
      magicShortCircuitEvents, commandName, default_model_for_provider]
  have hCod : rustStartsWith (channel.getD "") "discord:" = true →
      rustTrim text = "p-codex" →
      handleInboundPrompt runAmem s text provider channel =
        (s, magicShortCircuitEvents channel .Codex, none) := by
    intro hd ht
    have hpre : discord_magic_provider_preset text channel =
        some ⟨.Codex, DEFAULT_CODEX_MODEL⟩ := by
      simp [discord_magic_provider_preset, hd, ht]
    simp [handleInboundPrompt, hpre, apply_provider_preset,
      magicShortCircuitEvents, commandName, default_model_for_provider]
  have hCla : rustStartsWith (channel.getD "") "discord:" = true →
      rustTrim text = "p-claude" →
      handleInboundPrompt runAmem s text provider channel =
        (s, magicShortCircuitEvents channel .Claude, none) := by
    intro hd ht
    have hpre : discord_magic_provider_preset text channel =
        some ⟨.Claude, DEFAULT_CLAUDE_MODEL⟩ := by
      simp [discord_magic_provider_preset, hd, ht]
    simp [handleInboundPrompt, hpre, apply_provider_preset,
      magicShortCircuitEvents, commandName, default_model_for_provider]
  constructor
  · constructor
    · rintro ⟨P, hP⟩
      cases hmatch : discord_magic_provider_preset text channel with
      | none =>
        exfalso
        unfold handleInboundPrompt at hP
        rw [hmatch] at hP
        by_cases hs : rustStartsWith text "/" = true
        · simp only [hs, if_true] at hP
          have hlen := handle_command_events_short runAmem s text
          have heq : (handle_command runAmem s text).2 =
              magicShortCircuitEvents channel P := by
            have := congrArg (fun t => t.2.1) hP
            simpa using this
          rw [heq] at hlen
          simp [magicShortCircuitEvents] at hlen
        · simp only [hs, if_false] at hP
          have := congrArg (fun t => t.2.2) hP
          simp at this
      | some preset =>
        unfold discord_magic_provider_preset at hmatch
        by_cases hd : rustStartsWith (channel.getD "") "discord:"
        · refine ⟨hd, ?_⟩
          rw [hd] at hmatch
          simp only [Bool.not_true, Bool.false_eq_true, if_false] at hmatch
          by_cases h1 : rustTrim text = "p-gemini"
          · exact Or.inl h1
          by_cases h2 : rustTrim text = "p-codex"
          · exact Or.inr (Or.inl h2)
          by_cases h3 : rustTrim text = "p-claude"
          · exact Or.inr (Or.inr h3)
          simp [h1, h2, h3] at hmatch
        · exfalso
          simp [hd] at hmatch
    · rintro ⟨hd, ht | ht | ht⟩
      · exact ⟨.Gemini, hGem hd ht⟩
      · exact ⟨.Codex, hCod hd ht⟩
      · exact ⟨.Claude, hCla hd ht⟩
  · intro hd
    exact ⟨hGem hd, hCod hd, hCla hd⟩

/-- Witness for C6 at the concrete input of the spec's end-to-end scenario:
`p-claude` on a `discord:` channel switches to Claude with its default model
and spawns no execution task. -/
theorem magic_preset_short_circuit_iff_witness :
    handleInboundPrompt (fun _ => "") initialBridgeState "p-claude" none
        (some "discord:111:222") =
      (initialBridgeState,
       magicShortCircuitEvents (some "discord:111:222") .Claude, none) :=
  ((magic_preset_short_circuit_iff (fun _ => "") initialBridgeState "p-claude"
      none (some "discord:111:222")).2 (by decide)).2.2 (by decide)

/-- String concatenation concatenates the char lists (definitional). -/
theorem data_append (a b : String) : (a ++ b).data = a.data ++ b.data := rfl

/-- Building a string from a char list keeps the list (definitional). -/
theorem data_mk (l : List Char) : (String.mk l).data = l := rfl

/-- The char count of `truncate_for_discord` never exceeds the Discord safe
limit. -/
theorem truncate_for_discord_length (s : String) :
    (truncate_for_discord s).data.length ≤ DISCORD_SAFE_MESSAGE_LIMIT := by
  unfold truncate_for_discord
  dsimp only
  split
  · simpa using ‹_›
  · simp only [data_mk, List.length_append, List.length_take, List.length_cons,
      List.length_nil, DISCORD_SAFE_MESSAGE_LIMIT]
    omega

/-- C8 counterexample: at `body = ""` the formatter returns the bare suffix,
not `body ++ "\n\n" ++ suffix` as the claim's formula predicts (the source
special-cases an empty trimmed body). -/
theorem format_discord_reply_empty_body_counterexample :
    format_discord_agent_reply_with_status "" "gemini" "auto-gemini-3" =
        "__gemini:auto-gemini-3__" ∧
    ("" : String).data.length ≤
        1900 - (("__gemini:auto-gemini-3__" : String).data.length +
          ("\n\n" : String).data.length) ∧
    format_discord_agent_reply_with_status "" "gemini" "auto-gemini-3" ≠
        "" ++ "\n\n" ++ "__gemini:auto-gemini-3__" := by
  refine ⟨by decide, by decide, by decide⟩

/-- C8 (amended): the char count of the formatted reply is at most 1900 for
every input; and whenever the trimmed body is non-empty and
`reserved = chars(suffix) + chars("\n\n") < 1900`, the result is the body
(trimmed at the end, truncated to `budget - 1` chars plus `…` when longer
than `budget = 1900 - reserved`) followed by `"\n\n"` and the suffix, where
the suffix is built from the trimmed (and defaulted-when-empty) provider and
model. -/
theorem format_discord_reply_bound_and_shape :
    (∀ content provider model : String,
      (format_discord_agent_reply_with_status content provider model).data.length ≤
        1900) ∧
    (∀ content provider model : String,
      trimEndChars content.data ≠ [] →
      (discordSuffixOf provider model).data.length + 2 < 1900 →
      format_discord_agent_reply_with_status content provider model =
        String.mk
          (if (trimEndChars content.data).length ≤
              1900 - ((discordSuffixOf provider model).data.length + 2) then
            trimEndChars content.data
          else
            (trimEndChars content.data).take
                (1900 - ((discordSuffixOf provider model).data.length + 2) - 1)
              ++ ['…'])
          ++ "\n\n" ++ discordSuffixOf provider model) := by
  have hsep : (("\n\n" : String).data).length = 2 := rfl
  constructor
  · intro content provider model
    unfold format_discord_agent_reply_with_status
    dsimp only
    split
    · exact truncate_for_discord_length _
    · split
      · exact truncate_for_discord_length _
      · rename_i hres
        simp only [data_append, data_mk, List.length_append, List.length_cons,
          List.length_nil, DISCORD_SAFE_MESSAGE_LIMIT] at hres ⊢
        split
        · omega
        · split
          · simp only [List.length_cons, List.length_nil]
            omega
          · simp only [List.length_append, List.length_take, List.length_cons,
              List.length_nil]
            omega
  · intro content provider model hbody hres
    have h2 : (['\n', '\n'] : List Char).length = 2 := rfl
    unfold format_discord_agent_reply_with_status
    dsimp only
    rw [if_neg (by simpa [List.isEmpty_iff] using hbody)]
    simp only [h2, DISCORD_SAFE_MESSAGE_LIMIT]
    rw [if_neg (by omega)]
    by_cases hfit :
        (trimEndChars content.data).length ≤
          1900 - ((discordSuffixOf provider model).data.length + 2)
    · rw [if_pos hfit, if_pos hfit]
    · rw [if_neg hfit, if_neg hfit]
      by_cases hsmall : 1900 - ((discordSuffixOf provider model).data.length + 2) ≤ 1
      · rw [if_pos hsmall]
        have hone : 1900 - ((discordSuffixOf provider model).data.length + 2) - 1 = 0 := by
          omega
        rw [hone, List.take_zero, List.nil_append]
      · rw [if_neg hsmall]

/-- Witness for C8 at the concrete inputs of the spec's formatting scenario:
`"pong"` with provider `gemini` and model `auto-gemini-3`. -/
theorem format_discord_reply_bound_and_shape_witness :
    (format_discord_agent_reply_with_status "pong" "gemini" "auto-gemini-3").data.length ≤
        1900 ∧
    format_discord_agent_reply_with_status "pong" "gemini" "auto-gemini-3" =
      "pong\n\n__gemini:auto-gemini-3__" :=
  ⟨format_discord_reply_bound_and_shape.1 "pong" "gemini" "auto-gemini-3",
   ((format_discord_reply_bound_and_shape.2 "pong" "gemini" "auto-gemini-3"
      (by decide) (by decide)).trans (by decide))⟩

/-- C9: the Discord ingress filter rejects a message exactly when the author
is the bot itself, the author is flagged as a bot, the trimmed content is
empty, or an allowlist is configured and the author is not in it; in
particular with a singleton allowlist `{A}` a message from any `B ≠ A` is
never forwarded. -/
theorem ingress_filter_rejects_iff (msg : DiscordMessage)
    (bot_user_id : Option String) (allowed_user_ids : Option (List String)) :
    (should_forward_discord_message msg bot_user_id allowed_user_ids = false ↔
      ((∃ bot_id, bot_user_id = some bot_id ∧ msg.author.id = bot_id) ∨
       msg.author.bot.getD false = true ∨
       (trimChars msg.content.data).isEmpty = true ∨
       (∃ ids, allowed_user_ids = some ids ∧ msg.author.id ∉ ids))) ∧
    (∀ A B : String, B ≠ A →
      should_forward_discord_message
        { msg with author := { msg.author with id := B } }
        bot_user_id (some [A]) = false) := by
  constructor
  · unfold should_forward_discord_message
    cases bot_user_id with
    | none =>
      cases allowed_user_ids with
      | none => split_ifs <;> simp_all
      | some ids => split_ifs <;> simp_all
    | some bid =>
      cases allowed_user_ids with
      | none => split_ifs <;> simp_all
      | some ids => split_ifs <;> simp_all
  · intro A B hBA
    unfold should_forward_discord_message
    cases bot_user_id with
    | none => split_ifs <;> simp_all
    | some bid => split_ifs <;> simp_all

/-- Witness for C9 at a concrete input: with allowlist `{user-1}` a message
authored by `user-2` is rejected. -/
theorem ingress_filter_rejects_iff_witness :
    should_forward_discord_message
      { id := "msg1", channel_id := "ch1", content := "hello",
        author := { id := "user-2", username := "user", bot := some false } }
      (some "bot-1") (some ["user-1"]) = false :=
  (ingress_filter_rejects_iff
      { id := "msg1", channel_id := "ch1", content := "hello",
        author := { id := "user-2", username := "user", bot := some false } }
      (some "bot-1") (some ["user-1"])).2 "user-1" "user-2" (by decide)

/-- C10: with `DISCORD_ALLOWED_USER_IDS` unset, or set to a value all of
whose comma-separated entries trim to empty, the adapter runs with no
allowlist, and the allowlist clause of the ingress filter then rejects no
author (forwarding is decided by the other three clauses alone); otherwise
the allowlist is the set of trimmed entries with empty entries dropped and
duplicates removed. -/
theorem allowlist_env_parsing :
    load_allowed_discord_user_ids_from_env none = none ∧
    (∀ raw : String, (∀ s ∈ splitOnChar raw ',', rustTrim s = "") →
       load_allowed_discord_user_ids_from_env (some raw) = none) ∧
    (∀ raw : String, (∃ s ∈ splitOnChar raw ',', rustTrim s ≠ "") →
       load_allowed_discord_user_ids_from_env (some raw) =
         some ((((splitOnChar raw ',').map rustTrim).filter
             (fun s => !s.data.isEmpty)).dedup)) ∧
    (∀ (msg : DiscordMessage) (bot_user_id : Option String),
       should_forward_discord_message msg bot_user_id none = true ↔
         (¬ (∃ bot_id, bot_user_id = some bot_id ∧ msg.author.id = bot_id) ∧
          msg.author.bot.getD false = false ∧
          (trimChars msg.content.data).isEmpty = false)) := by
  have hstr : ∀ t : String, t = "" ↔ t.data = [] := by
    intro t
    constructor
    · intro h
      rw [h]
    · intro h
      cases t with
      | mk l =>
        have h2 : l = [] := h
        subst h2
        rfl
  have hempty : ∀ s : String, rustTrim s = "" ↔ (rustTrim s).data.isEmpty = true := by
    intro s
    rw [hstr, List.isEmpty_iff]
  refine ⟨rfl, ?_, ?_, ?_⟩
  · intro raw hall
    have hfilter : ((splitOnChar raw ',').map rustTrim).filter
        (fun s => !s.data.isEmpty) = [] := by
      rw [List.filter_eq_nil_iff]
      intro a ha
      rcases List.mem_map.mp ha with ⟨s, hs, rfl⟩
      have := (hempty s).mp (hall s hs)
      simp [this]
    simp only [load_allowed_discord_user_ids_from_env,
      parse_allowed_discord_user_ids]
    rw [hfilter]
    rfl
  · intro raw hex
    rcases hex with ⟨s, hs, hne⟩
    have hmem : rustTrim s ∈ ((splitOnChar raw ',').map rustTrim).filter
        (fun w => !w.data.isEmpty) := by
      rw [List.mem_filter]
      refine ⟨List.mem_map_of_mem rustTrim hs, ?_⟩
      simp only [Bool.not_eq_true']
      cases h : (rustTrim s).data.isEmpty
      · rfl
      · exact absurd ((hempty s).mpr h) hne
    have hne2 : (((splitOnChar raw ',').map rustTrim).filter
        (fun w => !w.data.isEmpty)).dedup ≠ [] := by
      intro h0
      have := (List.dedup_eq_nil _).mp h0
      rw [this] at hmem
      exact List.not_mem_nil _ hmem
    have hiso : ((((splitOnChar raw ',').map rustTrim).filter
        (fun w => !w.data.isEmpty)).dedup).isEmpty = false := by
      cases hL : (((splitOnChar raw ',').map rustTrim).filter
          (fun w => !w.data.isEmpty)).dedup with
      | nil => exact absurd hL hne2
      | cons a l => rfl
    simp only [load_allowed_discord_user_ids_from_env,
      parse_allowed_discord_user_ids]
    rw [hiso]
    simp
  · intro msg bot_user_id
    unfold should_forward_discord_message
    cases bot_user_id with
    | none => split_ifs <;> simp_all
    | some bid => split_ifs <;> simp_all

/-- While the Discord adapter's `bridge_sync_done` flag is unset, one
processed event produces no outbound platform message, and only the
`BridgeSyncDone` marker can set the flag. -/
theorem discord_presync_gate_step (st : DiscordAdapterState) (e : ProtocolEvent)
    (h : st.bridge_sync_done = false) :
    (discordBridgeEventStep st e).2 = [] ∧
    (e ≠ ProtocolEvent.BridgeSyncDone →
      (discordBridgeEventStep st e).1.bridge_sync_done = false) := by
  cases e <;> simp [discordBridgeEventStep, h]

/-- While the Discord adapter's `bridge_sync_done` flag is unset, a whole
run over marker-free events produces no outbound platform message and
leaves the flag unset. -/
theorem discord_presync_gate_run (st : DiscordAdapterState)
    (events : List ProtocolEvent) (hsync : st.bridge_sync_done = false)
    (hnomark : ∀ e ∈ events, e ≠ ProtocolEvent.BridgeSyncDone) :
    (discordBridgeEventRun st events).2 = [] ∧
    (discordBridgeEventRun st events).1.bridge_sync_done = false := by
  induction events generalizing st with
  | nil => exact ⟨rfl, hsync⟩
  | cons e rest ih =>
    have hstep := discord_presync_gate_step st e hsync
    have hflag := hstep.2 (hnomark e (by simp))
    have hr := ih (discordBridgeEventStep st e).1 hflag
      (fun x hx => hnomark x (by simp [hx]))
    simp [discordBridgeEventRun, hstep.1, hr.1, hr.2]

/-- C7 counterexample: the Slack adapter has no `bridge_sync_done` gate, so
a replayed backlog fragment received before any `BridgeSyncDone` marker is
acted on and produces an outbound Slack message. -/
theorem adapter_replay_gate_counterexample :
    (slackBridgeEventRun [] slackReplayExample).2 = [("C1", "old answer")] ∧
    (slackBridgeEventRun [] slackReplayExample).2 ≠ [] := by
  decide

/-- C7 (amended): only the Discord adapter ignores events received before
the `BridgeSyncDone` marker of the initial replay — pre-marker events
produce no Discord message, and the marker itself produces none; the Slack
and ntfy adapters track no `bridge_sync_done` and do act on replayed
events, re-sending the historical reply. -/
theorem adapter_replay_gate_amended :
    (∀ (st : DiscordAdapterState) (events : List ProtocolEvent),
       st.bridge_sync_done = false →
       (∀ e ∈ events, e ≠ ProtocolEvent.BridgeSyncDone) →
       (discordBridgeEventRun st events).2 = []) ∧
    (∀ st : DiscordAdapterState, st.bridge_sync_done = false →
       (discordBridgeEventStep st ProtocolEvent.BridgeSyncDone).2 = []) ∧
    (slackBridgeEventRun [] slackReplayExample).2 = [("C1", "old answer")] ∧
    (ntfyBridgeEventRun [] ntfyReplayExample).2 = ["old answer"] := by
  refine ⟨?_, ?_, by decide, by decide⟩
  · intro st events hsync hnomark
    exact (discord_presync_gate_run st events hsync hnomark).1
  · intro st hsync
    exact (discord_presync_gate_step st ProtocolEvent.BridgeSyncDone hsync).1

/-- Witness for C7 (amended) at a concrete input: a fresh Discord adapter
receiving a replayed prompt, chunk, completion and system message before
any marker sends nothing. -/
theorem adapter_replay_gate_amended_witness :
    (discordBridgeEventRun initialDiscordAdapterState
       [ProtocolEvent.Prompt "hello" none (some "discord:1:2"),
        ProtocolEvent.AgentChunk "old answer" (some "discord:1:2"),
        ProtocolEvent.AgentDone (some "discord:1:2"),
        ProtocolEvent.SystemMessage "note" (some "discord:1:2")]).2 = [] :=
  adapter_replay_gate_amended.1 initialDiscordAdapterState
    [ProtocolEvent.Prompt "hello" none (some "discord:1:2"),
     ProtocolEvent.AgentChunk "old answer" (some "discord:1:2"),
     ProtocolEvent.AgentDone (some "discord:1:2"),
     ProtocolEvent.SystemMessage "note" (some "discord:1:2")]
    (by decide) (by decide)

/-- Witness for C10 at concrete inputs: a value of only empty entries yields
no allowlist; a value with whitespace, empties and a duplicate yields the
trimmed, deduplicated set. -/
theorem allowlist_env_parsing_witness :
    load_allowed_discord_user_ids_from_env (some " , ,") = none ∧
    load_allowed_discord_user_ids_from_env (some " 123 , ,123,456 ") =
      some ["123", "456"] :=
  ⟨allowlist_env_parsing.2.1 " , ," (by decide),
   (allowlist_env_parsing.2.2.1 " 123 , ,123,456 " (by decide)).trans (by decide)⟩

end Acomm
